import Mathlib

/-!
Verification of the token-bridge core of the flood-risk-assessment
repository: the SQLite-backed store (`Database` in `lib/database.ts`)
and the HTTP handlers `sync-user` (POST and token GET/POST) and
`verify-token` (POST).

Modelling conventions:
  * timestamps are `Int` (an ISO-8601 string ordered by `datetime`
    comparison is order-isomorphic to an integer timeline);
  * the two SQLite tables are Lean lists in insertion order;
  * a database-layer failure of a single query is a `Bool` flag passed
    to the operation that models the rejected promise the source
    catches;
  * `undefined` / absent JSON fields are `Option`;
  * JavaScript falsiness of `body.expiresInMinutes || 1440` is modelled
    exactly: `none` and `some 0` are falsy, every other integer
    (negative ones included) is truthy.
-/

/-- Row of the `users` table (interface `User` in `lib/database.ts`). -/
structure User where
  id : String
  clerkId : String
  email : String
  firstName : Option String
  lastName : Option String
  imageUrl : Option String
  createdAt : Int
  updatedAt : Int
  lastSignInAt : Option Int
deriving Repr, DecidableEq

/-- Row of the `user_tokens` table (interface `UserToken`). -/
structure UserToken where
  id : String
  userId : String
  clerkId : String
  token : String
  expiresAt : Int
  createdAt : Int
deriving Repr, DecidableEq

/-- The two tables owned by the `Database` singleton. -/
structure DBState where
  users : List User
  tokens : List UserToken
deriving Repr, DecidableEq

/-- Input of `Database.createUser` / `Database.upsertUser`
(`Omit<User, 'id' | 'createdAt' | 'updatedAt'>`). -/
structure UserData where
  clerkId : String
  email : String
  firstName : Option String
  lastName : Option String
  imageUrl : Option String
  lastSignInAt : Option Int
deriving Repr, DecidableEq

/-- Input of `Database.updateUser`
(`Partial<Omit<User, 'id' | 'clerkId' | 'createdAt'>>`): a field set to
`none` is `undefined` and is skipped by the dynamic `UPDATE` builder. -/
structure UpdateData where
  email : Option String
  firstName : Option String
  lastName : Option String
  imageUrl : Option String
  lastSignInAt : Option Int
deriving Repr, DecidableEq

/-- Input of `Database.createUserToken`
(`Omit<UserToken, 'id' | 'createdAt'>`). -/
structure TokenData where
  userId : String
  clerkId : String
  token : String
  expiresAt : Int
deriving Repr, DecidableEq

/-- `Database.getUserByClerkId`: `SELECT * FROM users WHERE clerkId = ?`;
any thrown error is caught and `null` is returned, so a failing read
(`err = true`) is `none`. -/
def getUserByClerkId (err : Bool) (s : DBState) (clerkId : String) :
    Option User :=
  if err then none else s.users.find? (fun u => u.clerkId = clerkId)

/-- `Database.getUserByEmail`, same shape as `getUserByClerkId`. -/
def getUserByEmail (err : Bool) (s : DBState) (email : String) :
    Option User :=
  if err then none else s.users.find? (fun u => u.email = email)

/-- The row update performed by `Database.updateUser`'s dynamic
`UPDATE users SET ... WHERE clerkId = ?`: every defined field of
`updateData` is written, `updatedAt` is always written, and
`id`, `clerkId`, `createdAt` never appear in the SET list. -/
def applyUpdate (u : User) (d : UpdateData) (now : Int) : User :=
  { u with
    email := match d.email with
      | some v => v
      | none => u.email
    firstName := match d.firstName with
      | some v => some v
      | none => u.firstName
    lastName := match d.lastName with
      | some v => some v
      | none => u.lastName
    imageUrl := match d.imageUrl with
      | some v => some v
      | none => u.imageUrl
    lastSignInAt := match d.lastSignInAt with
      | some v => some v
      | none => u.lastSignInAt
    updatedAt := now }

/-- `Database.updateUser`: the `UPDATE ... WHERE clerkId = ?` touches
exactly the rows whose `clerkId` matches, then the row is re-read with
`getUserByClerkId`. (`updates.length === 0` is unreachable: `updatedAt`
is always in the SET list.) A failed write returns `null` with the
table unchanged. -/
def updateUser (err : Bool) (s : DBState) (clerkId : String)
    (d : UpdateData) (now : Int) : DBState × Option User :=
  if err then (s, none)
  else
    let users := s.users.map fun u =>
      if u.clerkId = clerkId then applyUpdate u d now else u
    let s := { s with users := users }
    (s, getUserByClerkId false s clerkId)

/-- The `user` object `Database.createUser` builds from `userData`, the
fresh id and `new Date()`. -/
def mkUser (d : UserData) (newId : String) (now : Int) : User :=
  { id := newId, clerkId := d.clerkId, email := d.email
    firstName := d.firstName, lastName := d.lastName
    imageUrl := d.imageUrl, createdAt := now, updatedAt := now
    lastSignInAt := d.lastSignInAt }

/-- `Database.createUser`: inserts a fresh row; the `INSERT` is rejected
by the `PRIMARY KEY` on `id` and the `UNIQUE` constraints on `clerkId`
and `email`, in which case the catch block rethrows
`Failed to create user`. -/
def createUser (s : DBState) (d : UserData) (newId : String) (now : Int) :
    Except String (DBState × User) :=
  if s.users.any (fun u =>
      u.id = newId || u.clerkId = d.clerkId || u.email = d.email) then
    .error ("Failed to create user")
  else
    .ok ({ s with users := s.users ++ [mkUser d newId now] },
      mkUser d newId now)

/-- The field set `Database.upsertUser` forwards to `updateUser` for an
existing user: `email`, `firstName`, `lastName`, `imageUrl`,
`lastSignInAt` straight from `userData` (so an `undefined` profile field
stays `undefined` in the update and is skipped there). -/
def toUpdateData (d : UserData) : UpdateData :=
  { email := some d.email, firstName := d.firstName
    lastName := d.lastName, imageUrl := d.imageUrl
    lastSignInAt := d.lastSignInAt }

/-- `Database.upsertUser`: looks up by `clerkId`; if present, forwards
the profile field set to `updateUser`; if absent, creates. -/
def upsertUser (s : DBState) (d : UserData) (newId : String) (now : Int) :
    Except String (DBState × Option User) :=
  match getUserByClerkId false s d.clerkId with
  | some _ =>
      let r := updateUser false s d.clerkId (toUpdateData d) now
      .ok r
  | none =>
      match createUser s d newId now with
      | .ok (s, u) => .ok (s, some u)
      | .error e => .error e

/-- The `userToken` object `Database.createUserToken` builds. -/
def mkToken (d : TokenData) (newId : String) (now : Int) : UserToken :=
  { id := newId, userId := d.userId, clerkId := d.clerkId
    token := d.token, expiresAt := d.expiresAt, createdAt := now }

/-- `Database.createUserToken`: inserts a token row. The only constraint
on `user_tokens` is the `PRIMARY KEY` on `id`; the `token` column has NO
`UNIQUE` constraint, so a duplicate `token` value is accepted. -/
def createUserToken (s : DBState) (d : TokenData) (newId : String)
    (now : Int) : Except String (DBState × UserToken) :=
  if s.tokens.any (fun t0 => t0.id = newId) then
    .error ("Failed to create user token")
  else
    .ok ({ s with tokens := s.tokens ++ [mkToken d newId now] },
      mkToken d newId now)

/-- `ORDER BY createdAt DESC LIMIT 1` over an already-filtered list:
keep the row with the greatest `createdAt` (first such row on ties). -/
def pickLatest : List UserToken → Option UserToken
  | [] => none
  | t :: ts =>
      match pickLatest ts with
      | none => some t
      | some best => if best.createdAt > t.createdAt then some best else some t

/-- `Database.getUserToken`: `SELECT * FROM user_tokens WHERE clerkId = ?
AND datetime(expiresAt) > datetime(now) ORDER BY createdAt DESC LIMIT 1`;
a thrown error is caught and `null` returned. -/
def getUserToken (err : Bool) (s : DBState) (clerkId : String)
    (now : Int) : Option UserToken :=
  if err then none
  else pickLatest (s.tokens.filter fun t =>
    t.clerkId = clerkId && now < t.expiresAt)

/-- `Database.deleteExpiredTokens`: `DELETE FROM user_tokens WHERE
datetime(expiresAt) <= datetime(now)`; its catch block swallows the
error, so a failing delete (`err = true`) leaves the table unchanged and
still returns normally. -/
def deleteExpiredTokens (err : Bool) (s : DBState) (now : Int) : DBState :=
  if err then s
  else { s with tokens := s.tokens.filter fun t => now < t.expiresAt }

/-- Descending insertion by `createdAt` (stable). -/
def insertByCreatedDesc (u : User) : List User → List User
  | [] => [u]
  | v :: vs =>
      if v.createdAt ≥ u.createdAt then v :: insertByCreatedDesc u vs
      else u :: v :: vs

/-- `SELECT * FROM users ORDER BY createdAt DESC`. -/
def sortByCreatedDesc : List User → List User
  | [] => []
  | u :: us => insertByCreatedDesc u (sortByCreatedDesc us)

/-- `Database.getAllUsers`: all users ordered by `createdAt DESC`; a
thrown error is caught and the empty list returned. -/
def getAllUsers (err : Bool) (s : DBState) : List User :=
  if err then [] else sortByCreatedDesc s.users

/-- HTTP responses the three auth routes can produce, by status code and
payload shape. `okUser` is sync-user's success (the user row); `okAuth`
is the `AuthenticatedUser` payload `{user, token, expiresAt}` of the
token routes. -/
inductive ApiResult where
  | unauthorized (msg : String)
  | badRequest (msg : String)
  | forbidden (msg : String)
  | notFound (msg : String)
  | serverError (msg : String)
  | okUser (user : Option User)
  | okAuth (user : User) (token : String) (expiresAt : Int)
deriving Repr, DecidableEq

/-- Request body of `POST /api/auth/sync-user` (`SyncUserRequest`). -/
structure SyncUserRequest where
  clerkId : String
  email : String
  firstName : Option String
  lastName : Option String
  imageUrl : Option String
  lastSignInAt : Option Int
deriving Repr, DecidableEq

/-- Request body of `POST /api/auth/sync-user/generate-token`
(`GenerateTokenRequest`). -/
structure GenerateTokenRequest where
  clerkId : String
  expiresInMinutes : Option Int
deriving Repr, DecidableEq

/-- JavaScript truthiness of a string: `null`/`undefined` and the empty
string are falsy. -/
def truthyStr : Option String → Bool
  | none => false
  | some s => s ≠ ""

/-- JavaScript truthiness of a number: `null`/`undefined` and `0` are
falsy; every other number, negative ones included, is truthy. -/
def truthyInt : Option Int → Bool
  | none => false
  | some n => n ≠ 0

/-- `body.expiresInMinutes || 1440` followed by
`Math.min(_, 10080)` (sync-user route, generate-token POST). -/
def clampTtl (req : Option Int) : Int :=
  min (if truthyInt req then req.getD 1440 else 1440) 10080

/-- The `userData` object the sync-user POST handler assembles from the
request body: profile fields verbatim, `lastSignInAt` defaulted to the
current time when falsy (`body.lastSignInAt || new Date().toISOString()`). -/
def syncUserData (body : SyncUserRequest) (now : Int) : UserData :=
  { clerkId := body.clerkId, email := body.email
    firstName := body.firstName, lastName := body.lastName
    imageUrl := body.imageUrl
    lastSignInAt := some ((if truthyInt body.lastSignInAt then
      body.lastSignInAt else none).getD now) }

/-- `POST /api/auth/sync-user`: Clerk auth check, required-field check,
clerkId-match check, then exactly one `upsertUser`. `authUserId` is the
`userId` Clerk's `auth()` resolved (falsy when absent). A rethrown store
error is caught by the outer try and mapped to a 500 with the state that
failed insert left behind (the failed `INSERT` writes nothing); the
`updatedUser!` non-null assertion means a `null` update result would be
serialized as a success with `data: null`. -/
def syncUserPOST (authUserId : Option String) (body : SyncUserRequest)
    (s : DBState) (now : Int) (newId : String) : ApiResult × DBState :=
  if ¬ truthyStr authUserId then
    (.unauthorized ("Unauthorized - no Clerk user ID found"), s)
  else if body.clerkId = "" ∨ body.email = "" then
    (.badRequest ("Missing required fields: clerkId and email are required"), s)
  else if authUserId ≠ some body.clerkId then
    (.forbidden ("Unauthorized - Clerk ID mismatch"), s)
  else
    match upsertUser s (syncUserData body now) newId now with
    | .ok (s, u) => (.okUser u, s)
    | .error _ => (.serverError ("Internal server error"), s)

/-- `POST /api/auth/sync-user/generate-token` (token issuance): auth and
clerkId checks, user lookup, TTL clamp, `deleteExpiredTokens`, then
`createUserToken`. `readErr` models a failing `getUserByClerkId` query,
`cleanupErr` a failing `DELETE` inside `deleteExpiredTokens`,
`newValue`/`newId` the generated `crypto.randomBytes` credential and the
row id. `expiresAt = Date.now() + expiresInMinutes * 60 * 1000`. -/
def generateTokenPOST (authUserId : Option String)
    (body : GenerateTokenRequest) (s : DBState) (now : Int)
    (newValue newId : String) (readErr cleanupErr : Bool) :
    ApiResult × DBState :=
  if ¬ truthyStr authUserId then
    (.unauthorized ("Unauthorized - no Clerk user ID found"), s)
  else if body.clerkId = "" then
    (.badRequest ("Missing required field: clerkId"), s)
  else if authUserId ≠ some body.clerkId then
    (.forbidden ("Unauthorized - Clerk ID mismatch"), s)
  else
    match getUserByClerkId readErr s body.clerkId with
    | none => (.notFound ("User not found. Please sync user first."), s)
    | some user =>
        let expiresInMinutes := clampTtl body.expiresInMinutes
        let expiresAt := now + expiresInMinutes * 60 * 1000
        let s := deleteExpiredTokens cleanupErr s now
        match createUserToken s
            { userId := user.id, clerkId := body.clerkId
              token := newValue, expiresAt := expiresAt } newId now with
        | .ok (s, userToken) =>
            (.okAuth user userToken.token userToken.expiresAt, s)
        | .error _ => (.serverError ("Internal server error"), s)

/-- `GET /api/auth/sync-user/generate-token` (fetch current token): auth
check, user lookup, `getUserToken`; a pure read — the state is returned
untouched. The two store queries can fail independently
(`userReadErr`, `tokenReadErr`). -/
def generateTokenGET (authUserId : Option String) (s : DBState)
    (now : Int) (userReadErr tokenReadErr : Bool) : ApiResult × DBState :=
  if ¬ truthyStr authUserId then
    (.unauthorized ("Unauthorized"), s)
  else
    match authUserId with
    | none => (.unauthorized ("Unauthorized"), s)
    | some userId =>
        match getUserByClerkId userReadErr s userId with
        | none => (.notFound ("User not found. Please sync user first."), s)
        | some user =>
            match getUserToken tokenReadErr s userId now with
            | none =>
                (.notFound ("No valid token found. Please generate a new token."), s)
            | some existingToken =>
                (.okAuth user existingToken.token existingToken.expiresAt, s)

/-- The scan loop of `POST /api/auth/verify-token`: for each user (in
`getAllUsers` order) fetch that user's current valid token via
`getUserToken`, compare it with the presented value, and on an unexpired
match stop with `{validToken, associatedUser}`. A match that fails the
inner expiry re-check does NOT break the loop. -/
def scanForToken (s : DBState) (now : Int) (tok : String) :
    List User → Option (UserToken × User)
  | [] => none
  | u :: rest =>
      match getUserToken false s u.clerkId now with
      | some ut =>
          if ut.token = tok then
            if now < ut.expiresAt then some (ut, u)
            else scanForToken s now tok rest
          else scanForToken s now tok rest
      | none => scanForToken s now tok rest

/-- `POST /api/auth/verify-token`: missing token is a 400; the linear
scan over `getAllUsers` decides validity; both "never issued" and
"expired" end in the SAME 401 response `Invalid or expired token`.
Read-only: the state is never written. -/
def verifyTokenPOST (tok : Option String) (s : DBState) (now : Int) :
    ApiResult × DBState :=
  if ¬ truthyStr tok then
    (.badRequest ("Missing token"), s)
  else
    match scanForToken s now (tok.getD "") (getAllUsers false s) with
    | some (validToken, associatedUser) =>
        (.okAuth associatedUser validToken.token validToken.expiresAt, s)
    | none => (.unauthorized ("Invalid or expired token"), s)

/-! ### Concrete fixtures for witnesses and counterexamples -/

/-- A stored user with a stored first name. -/
def u1 : User :=
  ⟨"user_1", "c1", "a@x.com", some "A", none, none, 0, 0, none⟩

/-- A token of `u1` that expired at time 50. -/
def tExpired : UserToken := ⟨"tok_0", "user_1", "c1", "vexp", 50, 1⟩

/-- An older still-valid token of `u1` (created at 2, expires at 1000). -/
def tOld : UserToken := ⟨"tok_1", "user_1", "c1", "va", 1000, 2⟩

/-- A newer still-valid token of `u1` (created at 3, expires at 1000). -/
def tNew : UserToken := ⟨"tok_2", "user_1", "c1", "vb", 1000, 3⟩

/-- One user whose only token has expired. -/
def sExpired : DBState := ⟨[u1], [tExpired]⟩

/-- One user holding two simultaneously valid tokens. -/
def sTwoValid : DBState := ⟨[u1], [tOld, tNew]⟩

/-- One user, no tokens. -/
def sOneUser : DBState := ⟨[u1], []⟩

/-- One user with one valid token. -/
def sOneValid : DBState := ⟨[u1], [tOld]⟩

/-! ### Store lemmas -/

theorem applyUpdate_id (u : User) (d : UpdateData) (now : Int) :
    (applyUpdate u d now).id = u.id := rfl

theorem applyUpdate_clerkId (u : User) (d : UpdateData) (now : Int) :
    (applyUpdate u d now).clerkId = u.clerkId := rfl

theorem applyUpdate_createdAt (u : User) (d : UpdateData) (now : Int) :
    (applyUpdate u d now).createdAt = u.createdAt := rfl

theorem pickLatest_mem : ∀ {l : List UserToken} {t : UserToken},
    pickLatest l = some t → t ∈ l := by
  intro l
  induction l with
  | nil => intro t h; simp [pickLatest] at h
  | cons a l ih =>
      intro t h
      unfold pickLatest at h
      cases hl : pickLatest l with
      | none =>
          rw [hl] at h
          simp only [Option.some.injEq] at h
          exact h ▸ List.mem_cons_self a l
      | some best =>
          rw [hl] at h
          simp only at h
          split at h
          · cases h
            exact List.mem_cons_of_mem a (ih hl)
          · cases h
            exact List.mem_cons_self a l

theorem pickLatest_eq_none_iff {l : List UserToken} :
    pickLatest l = none ↔ l = [] := by
  cases l with
  | nil => simp [pickLatest]
  | cons a l =>
      simp only [pickLatest, List.cons_ne_nil, iff_false]
      cases hl : pickLatest l with
      | none => simp
      | some best => simp only; split <;> simp

theorem pickLatest_max : ∀ {l : List UserToken} {t : UserToken},
    pickLatest l = some t → ∀ t' ∈ l, t'.createdAt ≤ t.createdAt := by
  intro l
  induction l with
  | nil => intro t h; simp [pickLatest] at h
  | cons a l ih =>
      intro t h t' ht'
      unfold pickLatest at h
      cases hl : pickLatest l with
      | none =>
          rw [hl] at h
          simp only [Option.some.injEq] at h
          rcases List.mem_cons.mp ht' with rfl | hm
          · exact h ▸ le_refl _
          · exact absurd (pickLatest_eq_none_iff.mp hl ▸ hm) (List.not_mem_nil t')
      | some best =>
          rw [hl] at h
          simp only at h
          split at h
          · cases h
            rcases List.mem_cons.mp ht' with rfl | hm
            · exact le_of_lt (by assumption)
            · exact ih hl t' hm
          · cases h
            rcases List.mem_cons.mp ht' with rfl | hm
            · exact le_refl _
            · exact le_trans (ih hl t' hm) (not_lt.mp (by assumption))

theorem getUserToken_some_spec {s : DBState} {cid : String} {now : Int}
    {t : UserToken} (h : getUserToken false s cid now = some t) :
    t ∈ s.tokens ∧ t.clerkId = cid ∧ now < t.expiresAt ∧
      ∀ t' ∈ s.tokens, t'.clerkId = cid → now < t'.expiresAt →
        t'.createdAt ≤ t.createdAt := by
  simp only [getUserToken, if_false, Bool.false_eq_true] at h
  have hmem := pickLatest_mem h
  have hmax := pickLatest_max h
  rw [List.mem_filter] at hmem
  obtain ⟨hmem, hp⟩ := hmem
  simp only [Bool.and_eq_true, decide_eq_true_eq] at hp
  refine ⟨hmem, hp.1, hp.2, ?_⟩
  intro t' ht' hc he
  exact hmax t' (List.mem_filter.mpr ⟨ht', by
    simp only [Bool.and_eq_true, decide_eq_true_eq]; exact ⟨hc, he⟩⟩)

theorem getUserToken_isSome {s : DBState} {cid : String} {now : Int}
    {t0 : UserToken} (h0 : t0 ∈ s.tokens) (hc : t0.clerkId = cid)
    (he : now < t0.expiresAt) :
    ∃ t, getUserToken false s cid now = some t := by
  simp only [getUserToken, if_false, Bool.false_eq_true]
  cases hl : pickLatest (s.tokens.filter fun t =>
      t.clerkId = cid && now < t.expiresAt) with
  | none =>
      exfalso
      have hnil := pickLatest_eq_none_iff.mp hl
      have : t0 ∈ (List.nil : List UserToken) := by
        rw [← hnil]
        exact List.mem_filter.mpr ⟨h0, by
          simp only [Bool.and_eq_true, decide_eq_true_eq]; exact ⟨hc, he⟩⟩
      exact List.not_mem_nil t0 this
  | some t => exact ⟨t, rfl⟩

theorem getUserToken_eq_none {s : DBState} {cid : String} {now : Int}
    (h : ∀ t ∈ s.tokens, t.clerkId = cid → t.expiresAt ≤ now) :
    getUserToken false s cid now = none := by
  simp only [getUserToken, if_false, Bool.false_eq_true]
  rw [pickLatest_eq_none_iff]
  rw [List.filter_eq_nil_iff]
  intro t ht
  simp only [Bool.and_eq_true, decide_eq_true_eq, not_and]
  intro hc
  exact not_lt.mpr (h t ht hc)

theorem mem_insertByCreatedDesc {u a : User} : ∀ {l : List User},
    a ∈ insertByCreatedDesc u l ↔ a = u ∨ a ∈ l := by
  intro l
  induction l with
  | nil => simp [insertByCreatedDesc]
  | cons v vs ih =>
      simp only [insertByCreatedDesc]
      split
      · simp only [List.mem_cons, ih]
        tauto
      · simp [List.mem_cons]

theorem mem_sortByCreatedDesc {a : User} : ∀ {l : List User},
    a ∈ sortByCreatedDesc l ↔ a ∈ l := by
  intro l
  induction l with
  | nil => simp [sortByCreatedDesc]
  | cons v vs ih =>
      simp only [sortByCreatedDesc, mem_insertByCreatedDesc, ih,
        List.mem_cons]

theorem scanForToken_some_spec {s : DBState} {now : Int} {tok : String}
    {ut : UserToken} {u : User} : ∀ {us : List User},
    scanForToken s now tok us = some (ut, u) →
    u ∈ us ∧ getUserToken false s u.clerkId now = some ut ∧
      ut.token = tok ∧ now < ut.expiresAt := by
  intro us
  induction us with
  | nil => intro h; simp [scanForToken] at h
  | cons u0 rest ih =>
      intro h
      unfold scanForToken at h
      cases hg : getUserToken false s u0.clerkId now with
      | none =>
          rw [hg] at h
          obtain ⟨hm, h1, h2, h3⟩ := ih h
          exact ⟨List.mem_cons_of_mem u0 hm, h1, h2, h3⟩
      | some t0 =>
          rw [hg] at h
          simp only at h
          by_cases htok : t0.token = tok
          · rw [if_pos htok] at h
            by_cases hexp : now < t0.expiresAt
            · rw [if_pos hexp] at h
              simp only [Option.some.injEq, Prod.mk.injEq] at h
              obtain ⟨rfl, rfl⟩ := h
              exact ⟨List.mem_cons_self u0 rest, hg, htok, hexp⟩
            · rw [if_neg hexp] at h
              obtain ⟨hm, h1, h2, h3⟩ := ih h
              exact ⟨List.mem_cons_of_mem u0 hm, h1, h2, h3⟩
          · rw [if_neg htok] at h
            obtain ⟨hm, h1, h2, h3⟩ := ih h
            exact ⟨List.mem_cons_of_mem u0 hm, h1, h2, h3⟩

theorem scanForToken_finds {s : DBState} {now : Int} {tok : String}
    {t : UserToken} {u : User}
    (hcur : getUserToken false s u.clerkId now = some t)
    (htv : t.token = tok)
    (huniq : ∀ t' ∈ s.tokens, t'.token = tok → t' = t)
    (hcid : ∀ u' ∈ s.users, u'.clerkId = u.clerkId → u' = u) :
    ∀ {us : List User}, u ∈ us → (∀ u' ∈ us, u' ∈ s.users) →
    scanForToken s now tok us = some (t, u) := by
  intro us
  induction us with
  | nil => intro h; simp at h
  | cons u0 rest ih =>
      intro hu hsub
      unfold scanForToken
      cases hg : getUserToken false s u0.clerkId now with
      | none =>
          simp only
          rcases List.mem_cons.mp hu with rfl | hm
          · rw [hcur] at hg; cases hg
          · exact ih hm (fun u' h' => hsub u' (List.mem_cons_of_mem u0 h'))
      | some t0 =>
          simp only
          by_cases htok : t0.token = tok
          · rw [if_pos htok]
            have ht0 := getUserToken_some_spec hg
            have ht0t : t0 = t := huniq t0 ht0.1 htok
            subst ht0t
            rw [if_pos ht0.2.2.1]
            have hc0 : u0.clerkId = u.clerkId := by
              have h1 := (getUserToken_some_spec hg).2.1
              have h2 := (getUserToken_some_spec hcur).2.1
              rw [h1] at h2
              exact h2
            have : u0 = u :=
              hcid u0 (hsub u0 (List.mem_cons_self u0 rest)) hc0
            rw [this]
          · rw [if_neg htok]
            rcases List.mem_cons.mp hu with rfl | hm
            · rw [hcur] at hg
              cases hg
              exact absurd htv htok
            · exact ih hm (fun u' h' => hsub u' (List.mem_cons_of_mem u0 h'))

theorem scanForToken_none {s : DBState} {now : Int} {tok : String}
    (h : ∀ t ∈ s.tokens, t.token = tok → t.expiresAt ≤ now) :
    ∀ (us : List User), scanForToken s now tok us = none := by
  intro us
  induction us with
  | nil => rfl
  | cons u0 rest ih =>
      unfold scanForToken
      cases hg : getUserToken false s u0.clerkId now with
      | none => exact ih
      | some t0 =>
          simp only
          have ht0 := getUserToken_some_spec hg
          by_cases htok : t0.token = tok
          · rw [if_pos htok]
            exact absurd ht0.2.2.1 (not_lt.mpr (h t0 ht0.1 htok))
          · rw [if_neg htok]
            exact ih

theorem find?_clerk_map (l : List User) (cid : String) (d : UpdateData)
    (now : Int) :
    (l.map fun v => if v.clerkId = cid then applyUpdate v d now else v).find?
        (fun u => u.clerkId = cid)
      = (l.find? (fun u => u.clerkId = cid)).map
          (fun u => applyUpdate u d now) := by
  induction l with
  | nil => rfl
  | cons v vs ih =>
      by_cases hv : v.clerkId = cid
      · simp only [List.map_cons, if_pos hv]
        rw [List.find?_cons_of_pos _ (by simp [applyUpdate_clerkId, hv]),
          List.find?_cons_of_pos _ (by simp [hv])]
        rfl
      · simp only [List.map_cons, if_neg hv]
        rw [List.find?_cons_of_neg _ (by simp [hv]),
          List.find?_cons_of_neg _ (by simp [hv])]
        exact ih

theorem updateUser_found {s : DBState} {cid : String} {u : User}
    (h : getUserByClerkId false s cid = some u) (d : UpdateData)
    (now : Int) :
    updateUser false s cid d now =
      ({ s with users := s.users.map fun v =>
          if v.clerkId = cid then applyUpdate v d now else v },
        some (applyUpdate u d now)) := by
  simp only [getUserByClerkId, if_false, Bool.false_eq_true] at h
  simp only [updateUser, if_false, Bool.false_eq_true, getUserByClerkId]
  rw [find?_clerk_map, h]
  rfl

theorem upsertUser_existing {s : DBState} {d : UserData} {u : User}
    (h : getUserByClerkId false s d.clerkId = some u)
    (newId : String) (now : Int) :
    upsertUser s d newId now =
      .ok ({ s with users := s.users.map fun v =>
          if v.clerkId = d.clerkId then applyUpdate v (toUpdateData d) now
          else v },
        some (applyUpdate u (toUpdateData d) now)) := by
  unfold upsertUser
  rw [h]
  rw [updateUser_found h]

theorem createUser_success {s : DBState} {d : UserData} {newId : String}
    {now : Int}
    (h : ∀ u ∈ s.users,
      u.id ≠ newId ∧ u.clerkId ≠ d.clerkId ∧ u.email ≠ d.email) :
    createUser s d newId now =
      .ok ({ s with users := s.users ++ [mkUser d newId now] },
        mkUser d newId now) := by
  unfold createUser
  rw [if_neg]
  simp only [List.any_eq_true, Bool.or_eq_true, decide_eq_true_eq, not_exists,
    not_and, not_or]
  intro u hu
  exact ⟨⟨(h u hu).1, (h u hu).2.1⟩, (h u hu).2.2⟩

theorem createUser_tokens {s s' : DBState} {d : UserData} {newId : String}
    {now : Int} {u : User}
    (h : createUser s d newId now = .ok (s', u)) : s'.tokens = s.tokens := by
  unfold createUser at h
  split at h
  · exact Except.noConfusion h
  · simp only [Except.ok.injEq, Prod.mk.injEq] at h
    rw [← h.1]

theorem upsertUser_tokens {s s' : DBState} {d : UserData} {newId : String}
    {now : Int} {u : Option User}
    (h : upsertUser s d newId now = .ok (s', u)) : s'.tokens = s.tokens := by
  unfold upsertUser at h
  cases hg : getUserByClerkId false s d.clerkId with
  | some u0 =>
      rw [hg, updateUser_found hg] at h
      simp only [Except.ok.injEq, Prod.mk.injEq] at h
      rw [← h.1]
  | none =>
      rw [hg] at h
      cases hc : createUser s d newId now with
      | error e => rw [hc] at h; exact Except.noConfusion h
      | ok p =>
          rw [hc] at h
          simp only [Except.ok.injEq, Prod.mk.injEq] at h
          rw [← h.1]
          exact createUser_tokens hc

/-! ### Handler lemmas -/

theorem clampTtl_eq (r : Option Int) :
    clampTtl r =
      match r with
      | none => 1440
      | some m => if m = 0 then 1440 else min m 10080 := by
  cases r with
  | none => rfl
  | some m =>
      by_cases hm : m = 0
      · subst hm; rfl
      · simp [clampTtl, truthyInt, hm]

theorem deleteExpiredTokens_sub {e : Bool} {s : DBState} {now : Int}
    {t : UserToken} (h : t ∈ (deleteExpiredTokens e s now).tokens) :
    t ∈ s.tokens := by
  cases e with
  | true => exact h
  | false => exact (List.mem_filter.mp h).1

theorem createUserToken_success {s : DBState} {d : TokenData}
    {newId : String} (now : Int)
    (h : ∀ t ∈ s.tokens, t.id ≠ newId) :
    createUserToken s d newId now =
      .ok ({ s with tokens := s.tokens ++ [mkToken d newId now] },
        mkToken d newId now) := by
  unfold createUserToken
  rw [if_neg]
  simp only [List.any_eq_true, decide_eq_true_eq, not_exists, not_and]
  exact h

theorem generateTokenPOST_success {cid : String} (hcid : cid ≠ "")
    {body : GenerateTokenRequest} (hb : body.clerkId = cid)
    {s : DBState} {u : User}
    (hu : getUserByClerkId false s cid = some u) (now : Int)
    (newValue newId : String) (hid : ∀ t ∈ s.tokens, t.id ≠ newId)
    (cleanupErr : Bool) :
    generateTokenPOST (some cid) body s now newValue newId false cleanupErr
      = (.okAuth u newValue
            (now + clampTtl body.expiresInMinutes * 60 * 1000),
          { deleteExpiredTokens cleanupErr s now with
            tokens := (deleteExpiredTokens cleanupErr s now).tokens ++
              [mkToken ⟨u.id, cid,
                newValue, now + clampTtl body.expiresInMinutes * 60 * 1000⟩
                newId now] }) := by
  subst hb
  unfold generateTokenPOST
  rw [if_neg, if_neg hcid, if_neg (by simp), hu]
  · simp only
    rw [createUserToken_success now
      (fun t ht => hid t (deleteExpiredTokens_sub ht))]
    rfl
  · simp [truthyStr, hcid]

theorem generateTokenGET_auth (uid : String) (huid : uid ≠ "")
    (s : DBState) (now : Int) (e1 e2 : Bool) :
    generateTokenGET (some uid) s now e1 e2 =
      match getUserByClerkId e1 s uid with
      | none => (.notFound ("User not found. Please sync user first."), s)
      | some user =>
          match getUserToken e2 s uid now with
          | none =>
              (.notFound ("No valid token found. Please generate a new token."), s)
          | some t => (.okAuth user t.token t.expiresAt, s) := by
  unfold generateTokenGET
  rw [if_neg]
  simp [truthyStr, huid]

theorem generateTokenGET_state (a : Option String) (s : DBState)
    (now : Int) (e1 e2 : Bool) :
    (generateTokenGET a s now e1 e2).snd = s := by
  unfold generateTokenGET
  split
  · rfl
  · split
    · rfl
    · split
      · rfl
      · split <;> rfl

theorem getAllUsers_false (s : DBState) :
    getAllUsers false s = sortByCreatedDesc s.users := rfl

/-! ### Claims -/

/-- Claim C1, counterexample: at time 100 the store holds exactly one
token, value `vexp`, expired at 50. Validating the expired value and
validating a value that was never issued produce the very same 401
response `Invalid or expired token`: the two failure outcomes are NOT
distinct, contrary to the claim. -/
theorem C1_counterexample :
    verifyTokenPOST (some "vexp") sExpired 100 =
      (.unauthorized ("Invalid or expired token"), sExpired) ∧
    verifyTokenPOST (some "nope") sExpired 100 =
      (.unauthorized ("Invalid or expired token"), sExpired) ∧
    (verifyTokenPOST (some "vexp") sExpired 100).fst =
      (verifyTokenPOST (some "nope") sExpired 100).fst := by
  refine ⟨by decide, by decide, by decide⟩

/-- Claim C1 as amended: a presented value that was never issued fails,
and a presented value whose every matching stored token is expired
fails — but both fail with one and the same 401 `Invalid or expired
token` response; validation does not distinguish the two cases. -/
theorem C1_validate_failure_conflated (s : DBState) (now : Int)
    (v : String) (hv : v ≠ "")
    (hexp : ∀ t ∈ s.tokens, t.token = v → t.expiresAt ≤ now) :
    verifyTokenPOST (some v) s now =
      (.unauthorized ("Invalid or expired token"), s) := by
  unfold verifyTokenPOST
  rw [if_neg (by simp [truthyStr, hv])]
  simp only [Option.getD_some]
  rw [scanForToken_none hexp]

/-- Claim C1 witness: the amended theorem evaluated on the concrete
expired-token store. -/
theorem C1_witness :
    verifyTokenPOST (some "vexp") sExpired 100 =
      (.unauthorized ("Invalid or expired token"), sExpired) :=
  C1_validate_failure_conflated sExpired 100 "vexp" (by decide) (by decide)

/-- Claim C2, counterexample: user `u1` holds two simultaneously valid
tokens, `va` (created at 2) and `vb` (created at 3), both unexpired at
time 100. Only the most recently created one validates: presenting `va`
fails with `Invalid or expired token` even though it is unexpired,
because the scan only ever compares against each user's most recent
valid token. -/
theorem C2_counterexample :
    tOld ∈ sTwoValid.tokens ∧ (100 : Int) < tOld.expiresAt ∧
    verifyTokenPOST (some "va") sTwoValid 100 =
      (.unauthorized ("Invalid or expired token"), sTwoValid) ∧
    verifyTokenPOST (some "vb") sTwoValid 100 =
      (.okAuth u1 "vb" 1000, sTwoValid) := by
  refine ⟨by decide, by decide, by decide, by decide⟩

/-- Claim C2 as amended: an unexpired issued token validates and
returns its owning user only when it is the most recently created valid
token of that user (and, values being unique, the right user is found);
an older still-valid token of the same user does not validate. -/
theorem C2_validate_current_token (s : DBState) (now : Int) (v : String)
    (hv : v ≠ "") (u : User) (t : UserToken)
    (hu : u ∈ s.users)
    (hcur : getUserToken false s u.clerkId now = some t)
    (htv : t.token = v)
    (huniq : ∀ t' ∈ s.tokens, t'.token = v → t' = t)
    (hcid : ∀ u' ∈ s.users, u'.clerkId = u.clerkId → u' = u) :
    verifyTokenPOST (some v) s now = (.okAuth u t.token t.expiresAt, s) := by
  unfold verifyTokenPOST
  rw [if_neg (by simp [truthyStr, hv])]
  simp only [Option.getD_some]
  rw [scanForToken_finds hcur htv huniq hcid
    (by rw [getAllUsers_false]; exact mem_sortByCreatedDesc.mpr hu)
    (fun u' h' => mem_sortByCreatedDesc.mp (getAllUsers_false s ▸ h'))]

/-- Claim C2 witness: the amended theorem evaluated on the two-token
store, validating the newer token `vb`. -/
theorem C2_witness :
    verifyTokenPOST (some "vb") sTwoValid 100 =
      (.okAuth u1 "vb" 1000, sTwoValid) :=
  C2_validate_current_token sTwoValid 100 "vb" (by decide) u1 tNew
    (by decide) (by decide) (by decide) (by decide) (by decide)

/-- Claim C3, counterexample: issuing with `expiresInMinutes = -5` at
time 1000000 does NOT fall back to the 1440-minute default; the negative
value is truthy in JavaScript, survives `Math.min`, and is used as-is,
yielding `expiresAt = 700000`, a token already expired at issuance. -/
theorem C3_counterexample :
    generateTokenPOST (some "c1") ⟨"c1", some (-5)⟩ sOneUser 1000000
        "val" "tid" false false =
      (.okAuth u1 "val" 700000,
        ⟨[u1], [⟨"tid", "user_1", "c1", "val", 700000, 1000000⟩]⟩) ∧
    (700000 : Int) ≠ 1000000 + 1440 * 60 * 1000 := by
  refine ⟨by decide, by decide⟩

/-- Claim C3 as amended: for a successful issuance the token's
`expiresAt` is `now + min(r, 10080)` minutes when `r` is supplied and
nonzero — a NEGATIVE `r` is therefore used as-is, producing an
already-expired token — and `now + 1440` minutes when `r` is missing or
zero. -/
theorem C3_ttl_clamp (cid : String) (hcid : cid ≠ "")
    (body : GenerateTokenRequest) (hb : body.clerkId = cid)
    (s : DBState) (u : User)
    (hu : getUserByClerkId false s cid = some u) (now : Int)
    (newValue newId : String) (hid : ∀ t ∈ s.tokens, t.id ≠ newId)
    (cleanupErr : Bool) :
    (generateTokenPOST (some cid) body s now newValue newId false
        cleanupErr).fst
      = .okAuth u newValue (now +
          (match body.expiresInMinutes with
           | none => 1440
           | some m => if m = 0 then 1440 else min m 10080) * 60 * 1000) := by
  rw [generateTokenPOST_success hcid hb hu now newValue newId hid cleanupErr]
  rw [← clampTtl_eq]

/-- Claim C3 witness: a requested TTL of 20000 minutes is clamped to
10080 minutes. -/
theorem C3_witness :
    (generateTokenPOST (some "c1") ⟨"c1", some 20000⟩ sOneUser 1000
        "val" "tid" false false).fst
      = .okAuth u1 "val" (1000 + min (20000 : Int) 10080 * 60 * 1000) := by
  have h := C3_ttl_clamp "c1" (by decide) ⟨"c1", some 20000⟩ rfl sOneUser
    u1 (by decide) 1000 "val" "tid" (by decide) false
  simpa using h

/-- Claim C4, counterexample: the store already holds token `tok_1` with
value `va`; inserting a second token with the SAME value `va` and a
fresh id succeeds (no `ConflictError`, no retry), and afterwards two
stored tokens share the value `va`. -/
theorem C4_counterexample :
    createUserToken ⟨[u1], [tOld]⟩ ⟨"user_1", "c1", "va", 2000⟩
        "tok_9" 5 =
      .ok (⟨[u1], [tOld, ⟨"tok_9", "user_1", "c1", "va", 2000, 5⟩]⟩,
        ⟨"tok_9", "user_1", "c1", "va", 2000, 5⟩) ∧
    tOld.token = "va" := by
  refine ⟨by rfl, by decide⟩

/-- Claim C4 as amended: token insertion checks only the `id` primary
key; a collision on the token VALUE is accepted without error and
without retry, so the store can hold two tokens sharing one value. -/
theorem C4_no_value_uniqueness (s : DBState) (d : TokenData)
    (newId : String) (now : Int) (t0 : UserToken)
    (hid : ∀ t ∈ s.tokens, t.id ≠ newId)
    (h0 : t0 ∈ s.tokens) (hval : t0.token = d.token) :
    createUserToken s d newId now =
      .ok ({ s with tokens := s.tokens ++ [mkToken d newId now] },
        mkToken d newId now) ∧
    t0 ∈ s.tokens ++ [mkToken d newId now] ∧
    (mkToken d newId now).token = t0.token :=
  ⟨createUserToken_success now hid, List.mem_append_left _ h0, hval.symm⟩

/-- Claim C4 witness: the amended theorem at the concrete colliding
insert. -/
theorem C4_witness :
    createUserToken ⟨[u1], [tOld]⟩ ⟨"user_1", "c1", "va", 2000⟩
        "tok_9" 5 =
      .ok (⟨[u1], [tOld, ⟨"tok_9", "user_1", "c1", "va", 2000, 5⟩]⟩,
        ⟨"tok_9", "user_1", "c1", "va", 2000, 5⟩) ∧
    tOld ∈ [tOld, (⟨"tok_9", "user_1", "c1", "va", 2000, 5⟩ : UserToken)] ∧
    ("va" : String) = tOld.token := by
  have h := C4_no_value_uniqueness ⟨[u1], [tOld]⟩
    ⟨"user_1", "c1", "va", 2000⟩ "tok_9" 5 tOld (by decide) (by decide)
    (by decide)
  exact h

/-- Claim C5: the fetch-current-token GET, for an authenticated
`uid`, (a) never writes state, (b) responds 404 when no user with that
clerkId is stored, (c) responds 404 when every stored token of the user
is expired, and (d) otherwise returns a stored, unexpired token of that
user whose `createdAt` is maximal among the user's unexpired tokens. -/
theorem C5_getCurrent_spec (uid : String) (huid : uid ≠ "")
    (s : DBState) (now : Int) :
    (generateTokenGET (some uid) s now false false).snd = s ∧
    (getUserByClerkId false s uid = none →
      (generateTokenGET (some uid) s now false false).fst
        = .notFound ("User not found. Please sync user first.")) ∧
    (∀ u, getUserByClerkId false s uid = some u →
      ((∀ t ∈ s.tokens, t.clerkId = uid → t.expiresAt ≤ now) →
        (generateTokenGET (some uid) s now false false).fst
          = .notFound ("No valid token found. Please generate a new token.")) ∧
      (∀ t0 ∈ s.tokens, t0.clerkId = uid → now < t0.expiresAt →
        ∃ t, (generateTokenGET (some uid) s now false false).fst
            = .okAuth u t.token t.expiresAt ∧
          t ∈ s.tokens ∧ t.clerkId = uid ∧ now < t.expiresAt ∧
          ∀ t' ∈ s.tokens, t'.clerkId = uid → now < t'.expiresAt →
            t'.createdAt ≤ t.createdAt)) := by
  have hA := generateTokenGET_auth uid huid s now false false
  refine ⟨generateTokenGET_state _ _ _ _ _, ?_, ?_⟩
  · intro hnone
    rw [hA, hnone]
  · intro u hu
    constructor
    · intro hexp
      rw [hA, hu, getUserToken_eq_none hexp]
    · intro t0 h0 hc he
      obtain ⟨t, ht⟩ := getUserToken_isSome h0 hc he
      obtain ⟨hmem, hcid, hlt, hmax⟩ := getUserToken_some_spec ht
      refine ⟨t, ?_, hmem, hcid, hlt, hmax⟩
      rw [hA, hu, ht]

/-- Claim C5 witness: on the one-valid-token store the GET returns the
stored token `va` of `u1`, leaves the state untouched, and the token is
createdAt-maximal. -/
theorem C5_witness :
    (generateTokenGET (some "c1") sOneValid 100 false false).snd
      = sOneValid ∧
    ∃ t, (generateTokenGET (some "c1") sOneValid 100 false false).fst
        = .okAuth u1 t.token t.expiresAt ∧
      t ∈ sOneValid.tokens ∧ t.clerkId = "c1" ∧ (100 : Int) < t.expiresAt ∧
      ∀ t' ∈ sOneValid.tokens, t'.clerkId = "c1" →
        (100 : Int) < t'.expiresAt → t'.createdAt ≤ t.createdAt := by
  have h := C5_getCurrent_spec "c1" (by decide) sOneValid 100
  exact ⟨h.1, (h.2.2 u1 (by decide)).2 tOld (by decide) (by decide)
    (by decide)⟩

/-- Claim C6, counterexample: `u1` is stored with `firstName = "A"`; a
sync whose assertion OMITS `firstName` (undefined) leaves the stored
`firstName` at `"A"` instead of overwriting it with the omitted
(absent) value — the dynamic UPDATE skips undefined fields. -/
theorem C6_counterexample :
    upsertUser sOneUser ⟨"c1", "a2@x.com", none, none, none, some 5⟩
        "nid" 10 =
      .ok (⟨[⟨"user_1", "c1", "a2@x.com", some "A", none, none, 0, 10,
          some 5⟩], []⟩,
        some ⟨"user_1", "c1", "a2@x.com", some "A", none, none, 0, 10,
          some 5⟩) ∧
    (some "A" : Option String) ≠ none := by
  refine ⟨by rfl, by decide⟩

/-- Claim C6 as amended: on a sync against an existing user, `email`
and `updatedAt` are always overwritten, and each optional profile
mirror field (`firstName`, `lastName`, `imageUrl`) is overwritten when
the assertion supplies it but RETAINS its previously stored value when
the assertion omits it. -/
theorem C6_profile_mirror_update {s : DBState} {d : UserData} {u : User}
    (h : getUserByClerkId false s d.clerkId = some u)
    (newId : String) (now : Int) :
    ∃ s' u', upsertUser s d newId now = .ok (s', some u') ∧
      u'.email = d.email ∧
      u'.firstName = (match d.firstName with
        | some v => some v
        | none => u.firstName) ∧
      u'.lastName = (match d.lastName with
        | some v => some v
        | none => u.lastName) ∧
      u'.imageUrl = (match d.imageUrl with
        | some v => some v
        | none => u.imageUrl) ∧
      u'.updatedAt = now :=
  ⟨_, _, upsertUser_existing h newId now, rfl, rfl, rfl, rfl, rfl⟩

/-- Claim C6 witness: the amended theorem at the concrete
omitted-firstName sync; the retained value is `u1`'s stored `"A"`. -/
theorem C6_witness :
    ∃ s' u', upsertUser sOneUser
        ⟨"c1", "a2@x.com", none, none, none, some 5⟩ "nid" 10
        = .ok (s', some u') ∧
      u'.email = "a2@x.com" ∧
      u'.firstName = some "A" ∧
      u'.lastName = u1.lastName ∧
      u'.imageUrl = u1.imageUrl ∧
      u'.updatedAt = 10 :=
  @C6_profile_mirror_update sOneUser
    ⟨"c1", "a2@x.com", none, none, none, some 5⟩ u1 (by rfl) "nid" 10

/-- Claim C7: an upsert whose `clerkId` matches a stored user leaves
`id`, `createdAt` and `clerkId` of that user's row unchanged (the row
returned is the stored row re-read after the update), and an upsert
with no matching user creates a fresh row appended to the table. -/
theorem C7_upsert_identity_frame (s : DBState) (d : UserData)
    (newId : String) (now : Int) :
    (∀ u, getUserByClerkId false s d.clerkId = some u →
      ∃ s' u', upsertUser s d newId now = .ok (s', some u') ∧
        getUserByClerkId false s' d.clerkId = some u' ∧
        u'.id = u.id ∧ u'.createdAt = u.createdAt ∧
        u'.clerkId = u.clerkId) ∧
    (getUserByClerkId false s d.clerkId = none →
      (∀ u ∈ s.users, u.id ≠ newId ∧ u.email ≠ d.email) →
      ∃ s', upsertUser s d newId now
          = .ok (s', some (mkUser d newId now)) ∧
        s'.users = s.users ++ [mkUser d newId now]) := by
  constructor
  · intro u hu
    refine ⟨_, _, upsertUser_existing hu newId now, ?_, rfl, rfl, rfl⟩
    simp only [getUserByClerkId, if_false, Bool.false_eq_true] at hu ⊢
    rw [find?_clerk_map, hu]
    rfl
  · intro hnone hfresh
    have hfind : ∀ u ∈ s.users, ¬(u.clerkId = d.clerkId) := by
      simp only [getUserByClerkId, if_false, Bool.false_eq_true,
        List.find?_eq_none, decide_eq_true_eq] at hnone
      exact hnone
    have hc := @createUser_success s d newId now
      (fun u hu => ⟨(hfresh u hu).1, hfind u hu, (hfresh u hu).2⟩)
    refine ⟨{ s with users := s.users ++ [mkUser d newId now] }, ?_, rfl⟩
    unfold upsertUser
    rw [hnone, hc]

/-- Claim C7 witness: both branches at concrete inputs — updating `u1`
keeps id `user_1`, createdAt 0 and clerkId `c1`; upserting an unknown
clerkId `c9` appends a fresh row. -/
theorem C7_witness :
    (∃ s' u', upsertUser sOneUser
        ⟨"c1", "a2@x.com", some "B", none, none, none⟩ "nid" 10
        = .ok (s', some u') ∧
      getUserByClerkId false s' "c1" = some u' ∧
      u'.id = u1.id ∧ u'.createdAt = u1.createdAt ∧
      u'.clerkId = u1.clerkId) ∧
    (∃ s', upsertUser sOneUser
        ⟨"c9", "z@x.com", none, none, none, none⟩ "nid" 10
        = .ok (s', some (mkUser ⟨"c9", "z@x.com", none, none, none,
            none⟩ "nid" 10)) ∧
      s'.users = sOneUser.users ++ [mkUser ⟨"c9", "z@x.com", none, none,
        none, none⟩ "nid" 10]) := by
  constructor
  · exact (C7_upsert_identity_frame sOneUser
      ⟨"c1", "a2@x.com", some "B", none, none, none⟩ "nid" 10).1 u1
      (by rfl)
  · exact (C7_upsert_identity_frame sOneUser
      ⟨"c9", "z@x.com", none, none, none, none⟩ "nid" 10).2 (by rfl)
      (by decide)

/-- Claim C8: every successful issuance applies the expired-token sweep
to the table BEFORE the insert (the final table is the swept table plus
the one new row), and this holds for both a succeeding and a FAILING
sweep (`cleanupErr`), whose swallowed error never aborts the insert:
the response is a success either way. -/
theorem C8_cleanup_before_insert (cid : String) (hcid : cid ≠ "")
    (body : GenerateTokenRequest) (hb : body.clerkId = cid)
    (s : DBState) (u : User)
    (hu : getUserByClerkId false s cid = some u) (now : Int)
    (newValue newId : String) (hid : ∀ t ∈ s.tokens, t.id ≠ newId)
    (cleanupErr : Bool) :
    (generateTokenPOST (some cid) body s now newValue newId false
        cleanupErr).fst
      = .okAuth u newValue
          (now + clampTtl body.expiresInMinutes * 60 * 1000) ∧
    (generateTokenPOST (some cid) body s now newValue newId false
        cleanupErr).snd.tokens
      = (deleteExpiredTokens cleanupErr s now).tokens ++
        [mkToken ⟨u.id, cid, newValue,
          now + clampTtl body.expiresInMinutes * 60 * 1000⟩ newId now] := by
  rw [generateTokenPOST_success hcid hb hu now newValue newId hid
    cleanupErr]
  exact ⟨rfl, rfl⟩

/-- Claim C8 witness: issuing over the expired-token store with a
FAILING sweep (`cleanupErr = true`) still succeeds; the expired row is
left behind and the new row is appended after it. -/
theorem C8_witness :
    (generateTokenPOST (some "c1") ⟨"c1", none⟩ sExpired 100 "val" "tid"
        false true).fst
      = .okAuth u1 "val" (100 + clampTtl none * 60 * 1000) ∧
    (generateTokenPOST (some "c1") ⟨"c1", none⟩ sExpired 100 "val" "tid"
        false true).snd.tokens
      = (deleteExpiredTokens true sExpired 100).tokens ++
        [mkToken ⟨u1.id, "c1", "val", 100 + clampTtl none * 60 * 1000⟩
          "tid" 100] :=
  C8_cleanup_before_insert "c1" (by decide) ⟨"c1", none⟩ rfl sExpired u1
    (by rfl) 100 "val" "tid" (by decide) true

/-- Claim C9: for an authenticated sync whose body lacks `clerkId` or
`email`, the handler answers 400 and writes nothing; for a valid,
identity-matching body it performs exactly one `upsertUser` with the
assembled `userData` — the final state is that single upsert's state,
the token table is untouched, and a store failure maps to a 500 with no
state change. -/
theorem C9_sync_validation_single_upsert (a : String) (ha : a ≠ "")
    (body : SyncUserRequest) (s : DBState) (now : Int) (newId : String) :
    ((body.clerkId = "" ∨ body.email = "") →
      syncUserPOST (some a) body s now newId =
        (.badRequest
          ("Missing required fields: clerkId and email are required"), s)) ∧
    (a = body.clerkId → body.clerkId ≠ "" → body.email ≠ "" →
      (syncUserPOST (some a) body s now newId).snd.tokens = s.tokens ∧
      (∀ s' u', upsertUser s (syncUserData body now) newId now
          = .ok (s', u') →
        syncUserPOST (some a) body s now newId = (.okUser u', s')) ∧
      (∀ e, upsertUser s (syncUserData body now) newId now = .error e →
        syncUserPOST (some a) body s now newId =
          (.serverError ("Internal server error"), s))) := by
  have ht : truthyStr (some a) = true := by simp [truthyStr, ha]
  constructor
  · intro hbad
    unfold syncUserPOST
    rw [if_neg (by simp [ht]), if_pos hbad]
  · intro hmatch hc he
    have hmain : syncUserPOST (some a) body s now newId =
        (match upsertUser s (syncUserData body now) newId now with
         | .ok (s', u') => (.okUser u', s')
         | .error _ => (.serverError ("Internal server error"), s)) := by
      unfold syncUserPOST
      rw [if_neg (by simp [ht]), if_neg (fun h => h.elim hc he),
        if_neg (not_ne_iff.mpr (by rw [hmatch]))]
    refine ⟨?_, ?_, ?_⟩
    · rw [hmain]
      cases hup : upsertUser s (syncUserData body now) newId now with
      | ok p =>
          obtain ⟨s', u'⟩ := p
          simp only
          exact upsertUser_tokens hup
      | error e => rfl
    · intro s' u' hup
      rw [hmain, hup]
    · intro e hup
      rw [hmain, hup]

/-- Claim C9 witness: a body with empty `clerkId` gets a 400 with the
store untouched; a valid matching body leaves the token table
unchanged. -/
theorem C9_witness :
    syncUserPOST (some "c1") ⟨"", "a@x.com", none, none, none, none⟩
        sOneUser 10 "nid" =
      (.badRequest
        ("Missing required fields: clerkId and email are required"),
        sOneUser) ∧
    (syncUserPOST (some "c1")
        ⟨"c1", "a2@x.com", none, none, none, none⟩ sOneUser 10
        "nid").snd.tokens = sOneUser.tokens := by
  constructor
  · exact (C9_sync_validation_single_upsert "c1" (by decide)
      ⟨"", "a@x.com", none, none, none, none⟩ sOneUser 10 "nid").1
      (Or.inl rfl)
  · exact ((C9_sync_validation_single_upsert "c1" (by decide)
      ⟨"c1", "a2@x.com", none, none, none, none⟩ sOneUser 10 "nid").2
      rfl (by decide) (by decide)).1

/-- Claim C10 (implicit): the read operations `getUserByClerkId`,
`getUserToken` and `getAllUsers` catch every database error and return
`null` / the empty list, making a storage failure indistinguishable at
the store interface from an absent row / empty table; consequently the
fetch-current-token GET reports not-found (never an internal error)
when either of its two reads fails. -/
theorem C10_reads_swallow_errors (s : DBState) (cid : String)
    (now : Int) :
    getUserByClerkId true s cid = none ∧
    getUserToken true s cid now = none ∧
    getAllUsers true s = [] ∧
    getUserByClerkId true s cid = getUserByClerkId false ⟨[], []⟩ cid ∧
    getUserToken true s cid now = getUserToken false ⟨[], []⟩ cid now ∧
    getAllUsers true s = getAllUsers false ⟨[], []⟩ ∧
    (cid ≠ "" →
      (generateTokenGET (some cid) s now true false).fst
        = .notFound ("User not found. Please sync user first.") ∧
      (∀ u, getUserByClerkId false s cid = some u →
        (generateTokenGET (some cid) s now false true).fst
          = .notFound
            ("No valid token found. Please generate a new token."))) := by
  refine ⟨rfl, rfl, rfl, rfl, rfl, rfl, ?_⟩
  intro hcid
  constructor
  · rw [generateTokenGET_auth cid hcid s now true false]
    rfl
  · intro u hu
    rw [generateTokenGET_auth cid hcid s now false true, hu]
    rfl

/-- Claim C10 witness: on the one-valid-token store, a failing user
read and a failing token read each surface as a 404, not an internal
error. -/
theorem C10_witness :
    getUserByClerkId true sOneValid "c1" = none ∧
    getUserToken true sOneValid "c1" 100 = none ∧
    getAllUsers true sOneValid = [] ∧
    (generateTokenGET (some "c1") sOneValid 100 true false).fst
      = .notFound ("User not found. Please sync user first.") ∧
    (generateTokenGET (some "c1") sOneValid 100 false true).fst
      = .notFound ("No valid token found. Please generate a new token.") := by
  have h := C10_reads_swallow_errors sOneValid "c1" 100
  have h7 := h.2.2.2.2.2.2 (by decide)
  exact ⟨h.1, h.2.1, h.2.2.1, h7.1, h7.2 u1 (by rfl)⟩
